import Mathlib

/-!
Verification of the snapshot-classification pipeline of the
aws-ami-snapshot-listing repository (src/find_snapshots.py and
src/find_attached_snapshots.py).

The two scripts share a classifier (`check_snapshot_association`), which
asks the cloud API which machine images reference a given snapshot, and a
partitioner (`categorize_snapshots` in the interactive script,
`find_attached_snapshots` in the fixed-config script) that splits the
classification outcomes into attached and unattached row lists.  The cloud
client is modelled as a function from a snapshot id to the result of the
filtered `describe_images` call: a list of images on success, an error
message on failure.  The nondeterministic completion order of the thread
pool is modelled by quantifying over the order in which outcomes arrive.
-/

abbrev SnapshotId := String

abbrev ImageId := String

/-- One machine image as returned by the filtered describe_images call;
only its id is read by the scripts (`image['ImageId']`). -/
structure Image where
  imageId : ImageId
deriving DecidableEq, Repr

/-- The cloud client handle, reduced to the one operation the classifier
issues: `describe_images` filtered by `block-device-mapping.snapshot-id`.
`Except.error` models the call raising an exception. -/
structure EC2Client where
  describeImagesBySnapshot : SnapshotId → Except String (List Image)

/-- One classification outcome: the snapshot id paired with
`some imageIds` when the lookup succeeded and `none` when it raised
(the Python function returns `(snapshot_id, associated_amis)` with
`associated_amis = None` on error). -/
abbrev Outcome := SnapshotId × Option (List ImageId)

/-- Embedding of `check_snapshot_association` (identical in both scripts):
on success it returns the snapshot id with the image ids extracted in
lookup order; on any lookup error it returns the id with `None`. -/
def check_snapshot_association (ec2 : EC2Client) (snapshot_id : SnapshotId) : Outcome :=
  match ec2.describeImagesBySnapshot snapshot_id with
  | Except.ok images => (snapshot_id, some (images.map Image.imageId))
  | Except.error _ => (snapshot_id, none)

/-- An attached-table row of the interactive script:
`{'SnapshotId': ..., 'AssociatedAMIs': [...]}`. -/
structure AttachedEntry where
  snapshotId : SnapshotId
  associatedAMIs : List ImageId
deriving DecidableEq, Repr

/-- The result-collection loop of `categorize_snapshots` over the outcomes
in the order `as_completed` yields them: an outcome with a present,
non-empty image list is appended to the attached list, a present empty
list to the unattached list, and a `None` (failed lookup) to neither. -/
def categorize_outcomes : List Outcome → List AttachedEntry × List SnapshotId
  | [] => ([], [])
  | (sid, some amis) :: rest =>
    let p := categorize_outcomes rest
    if 0 < amis.length then (⟨sid, amis⟩ :: p.1, p.2) else (p.1, sid :: p.2)
  | (_, none) :: rest => categorize_outcomes rest

/-- Embedding of `categorize_snapshots` (find_snapshots.py): classify every
snapshot and collect the results; `completion_order` is the snapshot-id
sequence in the order the futures complete. -/
def categorize_snapshots (ec2 : EC2Client) (completion_order : List SnapshotId) :
    List AttachedEntry × List SnapshotId :=
  categorize_outcomes (completion_order.map (check_snapshot_association ec2))

/-- An attached-table row of the fixed-config script: the image ids are
joined into a single string already at classification time. -/
structure FixedAttachedEntry where
  snapshotId : SnapshotId
  associatedAMIs : String
deriving DecidableEq, Repr

/-- The result-collection loop of `find_attached_snapshots` over outcomes
in completion order: only present, non-empty image lists produce a row,
with the ids joined by a comma and a space. -/
def find_attached_outcomes : List Outcome → List FixedAttachedEntry
  | [] => []
  | (sid, some amis) :: rest =>
    if 0 < amis.length then
      ⟨sid, String.intercalate ", " amis⟩ :: find_attached_outcomes rest
    else find_attached_outcomes rest
  | (_, none) :: rest => find_attached_outcomes rest

/-- Embedding of `find_attached_snapshots` (find_attached_snapshots.py). -/
def find_attached_snapshots (ec2 : EC2Client) (completion_order : List SnapshotId) :
    List FixedAttachedEntry :=
  find_attached_outcomes (completion_order.map (check_snapshot_association ec2))

/-- An input row to `save_data_to_csv`: the Python rows are dicts whose
`AssociatedAMIs` key may be absent (unattached rows); `none` models the
absent key. -/
structure CsvInputRow where
  snapshotId : SnapshotId
  associatedAMIs : Option (List ImageId)
deriving DecidableEq, Repr

/-- The value written in the AssociatedAMIs column by `save_data_to_csv`:
`", ".join(row['AssociatedAMIs']) if row.get('AssociatedAMIs') else "None"`.
The Python condition is falsy both when the key is absent and when the
list is empty. -/
def amiFieldValue : Option (List ImageId) → String
  | some amis => if amis.isEmpty then "None" else String.intercalate ", " amis
  | none => "None"

/-- Embedding of `save_data_to_csv` (find_snapshots.py) as the sequence of
CSV records it writes: a header row of the field names followed by one row
per input dict. -/
def save_data_to_csv (data : List CsvInputRow) (is_attached : Bool) : List (List String) :=
  let fieldnames := if is_attached then ["SnapshotId", "AssociatedAMIs"] else ["SnapshotId"]
  fieldnames :: data.map (fun row =>
    if is_attached then [row.snapshotId, amiFieldValue row.associatedAMIs]
    else [row.snapshotId])

/-- Embedding of `save_attached_snapshots_to_csv` (find_attached_snapshots.py):
the AssociatedAMIs value is already a joined string in the row. -/
def save_attached_snapshots_to_csv (data : List FixedAttachedEntry) : List (List String) :=
  ["SnapshotId", "AssociatedAMIs"] :: data.map (fun row => [row.snapshotId, row.associatedAMIs])

/-- A wall-clock reading truncated to the second, the only granularity
`strftime("%Y-%m-%d_%H-%M-%S")` observes. -/
structure ClockTime where
  year : Nat
  month : Nat
  day : Nat
  hour : Nat
  minute : Nat
  second : Nat
deriving DecidableEq, Repr

def padTwo (n : Nat) : String :=
  if n < 10 then "0" ++ toString n else toString n

def padFour (n : Nat) : String :=
  if n < 10 then "000" ++ toString n
  else if n < 100 then "00" ++ toString n
  else if n < 1000 then "0" ++ toString n
  else toString n

/-- Model of `datetime.now().strftime("%Y-%m-%d_%H-%M-%S")` applied to a
clock reading. -/
def strftimeYmdHMS (t : ClockTime) : String :=
  padFour t.year ++ "-" ++ padTwo t.month ++ "-" ++ padTwo t.day ++ "_"
    ++ padTwo t.hour ++ "-" ++ padTwo t.minute ++ "-" ++ padTwo t.second

/-- Embedding of `generate_filename` (find_snapshots.py); the clock reading
the Python function takes by side effect is an explicit argument. -/
def generate_filename (pre profile region : String) (now : ClockTime) : String :=
  pre ++ "_snapshots_" ++ profile ++ "_" ++ region ++ "_" ++ strftimeYmdHMS now ++ ".csv"

/-- Embedding of `generate_filename` (find_attached_snapshots.py), whose
output name is fixed to the attached form. -/
def generate_filename_fixed (profile region : String) (now : ClockTime) : String :=
  "attached_snapshots_" ++ profile ++ "_" ++ region ++ "_" ++ strftimeYmdHMS now ++ ".csv"

/-- One `open(filename, 'w')` + write, against a filesystem whose
writability per path is given by `writable`: on success the written file
(name and records) is produced, otherwise the IOError propagates. -/
def attemptWrite (writable : String → Bool) (filename : String) (rows : List (List String)) :
    Except String (String × List (List String)) :=
  if writable filename then Except.ok (filename, rows)
  else Except.error ("IOError: " ++ filename)

/-- The write phase of the interactive `main`: both `save_data_to_csv`
calls sit in one try block, so the attached table is written first and an
exception from either write aborts the rest of the block.  Returns the
files actually written and the error message, if any, that reached the
top-level handler. -/
def interactiveWritePhase (writable : String → Bool) (attached_file : String)
    (attached_data : List CsvInputRow) (unattached_file : String)
    (unattached_data : List CsvInputRow) :
    List (String × List (List String)) × Option String :=
  match attemptWrite writable attached_file (save_data_to_csv attached_data true) with
  | Except.error e => ([], some e)
  | Except.ok f1 =>
    match attemptWrite writable unattached_file (save_data_to_csv unattached_data false) with
    | Except.error e => ([f1], some e)
    | Except.ok f2 => ([f1, f2], none)

/-- Result of session initialisation: `boto3.Session(...).client('ec2')`
either yields a handle, raises a missing/partial-credentials error, or
raises some other setup error. -/
inductive InitResult where
  | ok (client : EC2Client)
  | credentialsMissing
  | otherFailure (msg : String)

/-- The external world of one interactive run: the init outcome, the
paginated snapshot listing (or a fetch exception), the completion order
the thread pool happens to produce, per-path writability, the clock, and
the two stdin answers. -/
structure Env where
  init : InitResult
  pages : Except String (List (List SnapshotId))
  arrival : List SnapshotId → List SnapshotId
  writable : String → Bool
  now : ClockTime
  profileInput : String
  regionInput : String

/-- Observable result of one interactive run: the process exit status,
whether the snapshot listing call was ever issued, the files written, and
the diagnostic lines printed. -/
structure MainResult where
  exitCode : Nat
  fetchAttempted : Bool
  files : List (String × List (List String))
  output : List String
deriving Repr

/-- Embedding of the interactive `main` (find_snapshots.py).
`initialize_aws_client` exits with status 1 on a credentials error (and on
any other init error) before any fetch; every exception after init is
caught by the top-level handler, which prints it and falls off the end of
`main`, so the process exits with status 0. -/
def run_main (env : Env) : MainResult :=
  let profile := if env.profileInput = "" then "default" else env.profileInput
  let region := if env.regionInput = "" then "us-east-1" else env.regionInput
  match env.init with
  | InitResult.credentialsMissing =>
    { exitCode := 1, fetchAttempted := false, files := [],
      output := ["AWS credentials not found. Ensure you have configured your profile correctly."] }
  | InitResult.otherFailure msg =>
    { exitCode := 1, fetchAttempted := false, files := [],
      output := ["Error initializing AWS client: " ++ msg] }
  | InitResult.ok client =>
    match env.pages with
    | Except.error e =>
      { exitCode := 0, fetchAttempted := true, files := [],
        output := ["An error occurred: " ++ e] }
    | Except.ok pages =>
      let snapshots := pages.flatten
      let part := categorize_snapshots client (env.arrival snapshots)
      let attached_file := generate_filename "attached" profile region env.now
      let unattached_file := generate_filename "unattached" profile region env.now
      let written := interactiveWritePhase env.writable attached_file
        (part.1.map (fun r => ⟨r.snapshotId, some r.associatedAMIs⟩))
        unattached_file (part.2.map (fun sid => ⟨sid, none⟩))
      { exitCode := 0, fetchAttempted := true, files := written.1,
        output := match written.2 with
          | some e => ["An error occurred: " ++ e]
          | none => [] }

/-- A small concrete client used to evaluate the theorems on concrete
inputs: one attached snapshot, one unattached snapshot, and every other id
raising a lookup error. -/
def wClient : EC2Client :=
  ⟨fun s =>
    if s = "snap-a" then Except.ok [⟨"ami-1"⟩]
    else if s = "snap-b" then Except.ok []
    else Except.error "throttled"⟩

/-- A concrete run environment whose session initialisation raises a
missing-credentials error. -/
def envCreds : Env :=
  { init := InitResult.credentialsMissing, pages := Except.ok [], arrival := id,
    writable := fun _ => true, now := ⟨2026, 10, 12, 0, 0, 0⟩,
    profileInput := "", regionInput := "" }

/-- A concrete run environment whose snapshot listing raises after a
successful session initialisation. -/
def envFetchFail : Env :=
  { init := InitResult.ok wClient, pages := Except.error "RequestLimitExceeded",
    arrival := id, writable := fun _ => true, now := ⟨2026, 10, 12, 0, 0, 0⟩,
    profileInput := "", regionInput := "" }

/-- A concrete run environment that initialises and fetches successfully
but cannot write any output file, so the attached-table write raises an
IOError that reaches main's top-level handler. -/
def envWriteFail : Env :=
  { init := InitResult.ok wClient, pages := Except.ok [["snap-a"]], arrival := id,
    writable := fun _ => false, now := ⟨2026, 10, 12, 0, 0, 0⟩,
    profileInput := "", regionInput := "" }

/-- The first component of a classification outcome is always the queried
snapshot id, on success and on failure alike. -/
lemma check_snapshot_association_fst (ec2 : EC2Client) (sid : SnapshotId) :
    (check_snapshot_association ec2 sid).1 = sid := by
  unfold check_snapshot_association
  cases ec2.describeImagesBySnapshot sid <;> rfl

/-- The attached list produced by the collection loop, as a filterMap. -/
lemma categorize_outcomes_fst_eq_filterMap (l : List Outcome) :
    (categorize_outcomes l).1 = l.filterMap (fun o =>
      match o.2 with
      | some amis => if 0 < amis.length then some ⟨o.1, amis⟩ else none
      | none => none) := by
  induction l with
  | nil => rfl
  | cons x rest ih =>
    rcases x with ⟨sid, r⟩
    cases r with
    | none => simpa [categorize_outcomes, List.filterMap_cons] using ih
    | some amis =>
      by_cases h : 0 < amis.length <;>
        simp [categorize_outcomes, h, List.filterMap_cons, ih]

/-- The unattached list produced by the collection loop, as a filterMap. -/
lemma categorize_outcomes_snd_eq_filterMap (l : List Outcome) :
    (categorize_outcomes l).2 = l.filterMap (fun o =>
      match o.2 with
      | some amis => if 0 < amis.length then none else some o.1
      | none => none) := by
  induction l with
  | nil => rfl
  | cons x rest ih =>
    rcases x with ⟨sid, r⟩
    cases r with
    | none => simpa [categorize_outcomes, List.filterMap_cons] using ih
    | some amis =>
      by_cases h : 0 < amis.length <;>
        simp [categorize_outcomes, h, List.filterMap_cons, ih]

/-- Membership in the attached list: exactly the outcomes whose lookup
succeeded with a non-empty image list. -/
lemma mem_categorize_outcomes_fst (l : List Outcome) (r : AttachedEntry) :
    r ∈ (categorize_outcomes l).1 ↔
      ((r.snapshotId, some r.associatedAMIs) ∈ l ∧ r.associatedAMIs ≠ []) := by
  rw [categorize_outcomes_fst_eq_filterMap, List.mem_filterMap]
  constructor
  · rintro ⟨⟨s, v⟩, ho, hf⟩
    cases v with
    | none => simp at hf
    | some amis =>
      by_cases h : 0 < amis.length
      · simp only [h, if_pos] at hf
        cases hf
        exact ⟨ho, by simpa [← List.length_pos_iff_ne_nil] using h⟩
      · simp [h] at hf
  · rintro ⟨hmem, hne⟩
    refine ⟨(r.snapshotId, some r.associatedAMIs), hmem, ?_⟩
    have h : 0 < r.associatedAMIs.length := List.length_pos_iff_ne_nil.mpr hne
    simp [h]

/-- Membership in the unattached list: exactly the outcomes whose lookup
succeeded with an empty image list. -/
lemma mem_categorize_outcomes_snd (l : List Outcome) (sid : SnapshotId) :
    sid ∈ (categorize_outcomes l).2 ↔ (sid, some ([] : List ImageId)) ∈ l := by
  rw [categorize_outcomes_snd_eq_filterMap, List.mem_filterMap]
  constructor
  · rintro ⟨⟨s, v⟩, ho, hf⟩
    cases v with
    | none => simp at hf
    | some amis =>
      by_cases h : 0 < amis.length
      · simp [h] at hf
      · have hnil : amis = [] := by
          simpa [List.length_eq_zero] using Nat.eq_zero_of_not_pos h
        simp only [if_neg h, Option.some.injEq] at hf
        subst hf
        simpa [hnil] using ho
  · intro hmem
    exact ⟨(sid, some []), hmem, by simp⟩

/-- An outcome with a failed lookup contributes nothing to either list:
removing it from the outcome stream leaves the partition unchanged. -/
lemma categorize_outcomes_append_failed (xs : List Outcome) (sid : SnapshotId)
    (ys : List Outcome) :
    categorize_outcomes (xs ++ (sid, none) :: ys) = categorize_outcomes (xs ++ ys) := by
  induction xs with
  | nil => rfl
  | cons x xs ih =>
    rcases x with ⟨s, r⟩
    cases r with
    | none => simpa [categorize_outcomes] using ih
    | some amis => simp [categorize_outcomes, ih]

/-- Every outcome lands in exactly one of the three groups: the full
outcome stream is a permutation of (attached as outcomes) ++ (unattached
as outcomes) ++ (failed outcomes). -/
lemma categorize_outcomes_perm (l : List Outcome) :
    l.Perm ((categorize_outcomes l).1.map (fun r => (r.snapshotId, some r.associatedAMIs))
      ++ (categorize_outcomes l).2.map (fun sid => (sid, some ([] : List ImageId)))
      ++ l.filter (fun o => o.2.isNone)) := by
  induction l with
  | nil => simp [categorize_outcomes]
  | cons x rest ih =>
    rcases x with ⟨sid, r⟩
    cases r with
    | none =>
      have hc : categorize_outcomes ((sid, none) :: rest) = categorize_outcomes rest := rfl
      have hfil : ((sid, (none : Option (List ImageId))) :: rest).filter (fun o => o.2.isNone)
          = (sid, none) :: rest.filter (fun o => o.2.isNone) := rfl
      rw [hc, hfil]
      refine (ih.cons (sid, none)).trans ?_
      exact List.perm_middle.symm
    | some amis =>
      by_cases h : 0 < amis.length
      · have hc : categorize_outcomes ((sid, some amis) :: rest)
            = (⟨sid, amis⟩ :: (categorize_outcomes rest).1, (categorize_outcomes rest).2) := by
          simp [categorize_outcomes, h]
        have hfil : ((sid, some amis) :: rest).filter (fun o => o.2.isNone)
            = rest.filter (fun o => o.2.isNone) := rfl
        rw [hc, hfil]
        simpa using ih.cons (sid, some amis)
      · have hnil : amis = [] := by
          simpa [List.length_eq_zero] using Nat.eq_zero_of_not_pos h
        subst hnil
        have hc : categorize_outcomes ((sid, some ([] : List ImageId)) :: rest)
            = ((categorize_outcomes rest).1, sid :: (categorize_outcomes rest).2) := rfl
        have hfil : ((sid, some ([] : List ImageId)) :: rest).filter (fun o => o.2.isNone)
            = rest.filter (fun o => o.2.isNone) := rfl
        rw [hc, hfil]
        refine (ih.cons (sid, some [])).trans ?_
        exact List.Perm.append_right _ List.perm_middle.symm

/-- The fixed-config collection loop is the attached component of the
interactive one, with the image ids joined by a comma and a space. -/
lemma find_attached_outcomes_eq_map (l : List Outcome) :
    find_attached_outcomes l = (categorize_outcomes l).1.map
      (fun r => ⟨r.snapshotId, String.intercalate ", " r.associatedAMIs⟩) := by
  induction l with
  | nil => rfl
  | cons x rest ih =>
    rcases x with ⟨sid, r⟩
    cases r with
    | none => simpa [find_attached_outcomes, categorize_outcomes] using ih
    | some amis =>
      by_cases h : 0 < amis.length <;>
        simp [find_attached_outcomes, categorize_outcomes, h, ih]

/-- Claim C1: for every set of classification outcomes given to
`categorize_snapshots`, an outcome is in the attached partition iff its
image-id sequence is present and non-empty, in the unattached partition
iff present and empty; the two partitions are disjoint, and their union
together with the failed outcomes is (as a multiset, the spec's Partition
being a pair of sets) the full outcome set. -/
theorem categorize_snapshots_partition (ec2 : EC2Client) (order : List SnapshotId) :
    (∀ sid amis, (⟨sid, amis⟩ : AttachedEntry) ∈ (categorize_snapshots ec2 order).1 ↔
        ((sid, some amis) ∈ order.map (check_snapshot_association ec2) ∧ amis ≠ []))
    ∧ (∀ sid, sid ∈ (categorize_snapshots ec2 order).2 ↔
        (sid, some ([] : List ImageId)) ∈ order.map (check_snapshot_association ec2))
    ∧ (∀ sid, (∃ r ∈ (categorize_snapshots ec2 order).1, r.snapshotId = sid) →
        sid ∉ (categorize_snapshots ec2 order).2)
    ∧ (order.map (check_snapshot_association ec2)).Perm
        ((categorize_snapshots ec2 order).1.map (fun r => (r.snapshotId, some r.associatedAMIs))
          ++ (categorize_snapshots ec2 order).2.map (fun sid => (sid, some ([] : List ImageId)))
          ++ (order.map (check_snapshot_association ec2)).filter (fun o => o.2.isNone)) := by
  refine ⟨?_, ?_, ?_, ?_⟩
  · intro sid amis
    have h := mem_categorize_outcomes_fst (order.map (check_snapshot_association ec2)) ⟨sid, amis⟩
    simpa [categorize_snapshots] using h
  · intro sid
    have h := mem_categorize_outcomes_snd (order.map (check_snapshot_association ec2)) sid
    simpa [categorize_snapshots] using h
  · rintro sid ⟨r, hr, hsid⟩ hun
    simp only [categorize_snapshots] at hr hun
    obtain ⟨hmem1, hne⟩ :=
      (mem_categorize_outcomes_fst (order.map (check_snapshot_association ec2)) r).mp hr
    have hmem2 :=
      (mem_categorize_outcomes_snd (order.map (check_snapshot_association ec2)) sid).mp hun
    rw [List.mem_map] at hmem1 hmem2
    obtain ⟨s1, _, he1⟩ := hmem1
    obtain ⟨s2, _, he2⟩ := hmem2
    have hs1 : s1 = r.snapshotId := by
      rw [← check_snapshot_association_fst ec2 s1, he1]
    have hs2 : s2 = sid := by
      rw [← check_snapshot_association_fst ec2 s2, he2]
    have heq : s1 = s2 := by rw [hs1, hs2, hsid]
    rw [heq, he2] at he1
    have hamis : some ([] : List ImageId) = some r.associatedAMIs :=
      congrArg Prod.snd he1
    exact hne (by simpa using hamis.symm)
  · have h := categorize_outcomes_perm (order.map (check_snapshot_association ec2))
    simpa [categorize_snapshots] using h

/-- Claim C1 witness: on the concrete client, the snapshot that landed in
the attached partition is absent from the unattached partition. -/
theorem categorize_snapshots_partition_witness :
    "snap-a" ∉ (categorize_snapshots wClient ["snap-a", "snap-b", "snap-c"]).2 :=
  (categorize_snapshots_partition wClient ["snap-a", "snap-b", "snap-c"]).2.2.1 "snap-a"
    ⟨⟨"snap-a", ["ami-1"]⟩, by decide, rfl⟩

/-- Claim C2: classification produces exactly one outcome per fetched
snapshot: the outcome list has the same length as the snapshot list, with
the i-th outcome carrying the i-th snapshot's id, so nothing is dropped or
duplicated before partitioning. -/
theorem classification_one_outcome_per_snapshot (ec2 : EC2Client) (order : List SnapshotId) :
    (order.map (check_snapshot_association ec2)).length = order.length
    ∧ ∀ i (h : i < order.length),
        ((order.map (check_snapshot_association ec2)).get ⟨i, by simpa using h⟩).1
          = order.get ⟨i, h⟩ := by
  refine ⟨List.length_map _ _, ?_⟩
  intro i h
  simp [List.get_map, check_snapshot_association_fst]

/-- Claim C2 witness: on a concrete two-snapshot fetch the first outcome
carries the first snapshot's id. -/
theorem classification_one_outcome_per_snapshot_witness :
    ((["snap-a", "snap-b"].map (check_snapshot_association wClient)).get
        ⟨0, by simp⟩).1 = "snap-a" := by
  have h := (classification_one_outcome_per_snapshot wClient ["snap-a", "snap-b"]).2 0
    (by decide)
  simpa using h

/-- Claim C3: when the image lookup for a snapshot raises, the classifier
returns the failed outcome (its id with None) instead of aborting, and
that outcome contributes to neither partition: removing it from the
outcome stream leaves the partition of the other outcomes unchanged. -/
theorem lookup_failure_isolated (ec2 : EC2Client) (sid : SnapshotId) (e : String)
    (h : ec2.describeImagesBySnapshot sid = Except.error e) :
    check_snapshot_association ec2 sid = (sid, none)
    ∧ ∀ xs ys : List Outcome,
        categorize_outcomes (xs ++ check_snapshot_association ec2 sid :: ys)
          = categorize_outcomes (xs ++ ys) := by
  have hc : check_snapshot_association ec2 sid = (sid, none) := by
    unfold check_snapshot_association
    rw [h]
  refine ⟨hc, ?_⟩
  intro xs ys
  rw [hc]
  exact categorize_outcomes_append_failed xs sid ys

/-- Claim C3 witness: the concrete client's failing snapshot yields the
failed outcome and drops out of the partition of a three-outcome run. -/
theorem lookup_failure_isolated_witness :
    check_snapshot_association wClient "snap-c" = ("snap-c", none)
    ∧ categorize_outcomes
        ([("snap-a", some ["ami-1"])] ++ check_snapshot_association wClient "snap-c"
          :: [("snap-b", some [])])
      = categorize_outcomes ([("snap-a", some ["ami-1"])] ++ [("snap-b", some [])]) := by
  have h := lookup_failure_isolated wClient "snap-c" "throttled" rfl
  exact ⟨h.1, h.2 [("snap-a", some ["ami-1"])] [("snap-b", some [])]⟩

/-- Claim C4: a successful lookup with at least one matching image yields
the attached outcome carrying the image ids in lookup order (the i-th id
is the i-th image's), and a successful lookup with zero matches yields the
unattached outcome. -/
theorem lookup_success_classification (ec2 : EC2Client) (sid : SnapshotId)
    (images : List Image) (h : ec2.describeImagesBySnapshot sid = Except.ok images) :
    check_snapshot_association ec2 sid = (sid, some (images.map Image.imageId))
    ∧ (∀ i (hi : i < images.length),
        (images.map Image.imageId).get ⟨i, by simpa using hi⟩ = (images.get ⟨i, hi⟩).imageId)
    ∧ (images ≠ [] →
        categorize_outcomes [check_snapshot_association ec2 sid]
          = ([⟨sid, images.map Image.imageId⟩], []))
    ∧ (images = [] →
        categorize_outcomes [check_snapshot_association ec2 sid] = ([], [sid])) := by
  have hc : check_snapshot_association ec2 sid = (sid, some (images.map Image.imageId)) := by
    unfold check_snapshot_association
    rw [h]
  refine ⟨hc, ?_, ?_, ?_⟩
  · intro i hi
    simp [List.get_map]
  · intro hne
    have hp : 0 < (images.map Image.imageId).length := by
      simpa using List.length_pos.mpr hne
    rw [hc]
    simp [categorize_outcomes, hp, hne]
  · intro hnil
    subst hnil
    rw [hc]
    rfl

/-- Claim C4 witness: the concrete client's attached snapshot produces the
attached outcome with its one image id, and its empty-lookup snapshot the
unattached outcome. -/
theorem lookup_success_classification_witness :
    check_snapshot_association wClient "snap-a" = ("snap-a", some ["ami-1"])
    ∧ categorize_outcomes [check_snapshot_association wClient "snap-a"]
        = ([⟨"snap-a", ["ami-1"]⟩], [])
    ∧ categorize_outcomes [check_snapshot_association wClient "snap-b"] = ([], ["snap-b"]) := by
  have ha := lookup_success_classification wClient "snap-a" [⟨"ami-1"⟩] rfl
  have hb := lookup_success_classification wClient "snap-b" [] rfl
  exact ⟨ha.1, ha.2.2.1 (by decide), hb.2.2.2 rfl⟩

/-- Claim C5: the partition is invariant under permutation of the arrival
order of the outcomes: two outcome streams that are permutations of each
other yield the same attached and the same unattached collection (equal as
multisets, the spec's Partition being a pair of sets; the order inside
each output list merely follows completion order). -/
theorem categorize_outcomes_perm_invariant (l1 l2 : List Outcome) (h : l1.Perm l2) :
    (categorize_outcomes l1).1.Perm (categorize_outcomes l2).1
    ∧ (categorize_outcomes l1).2.Perm (categorize_outcomes l2).2 := by
  constructor
  · rw [categorize_outcomes_fst_eq_filterMap, categorize_outcomes_fst_eq_filterMap]
    exact h.filterMap _
  · rw [categorize_outcomes_snd_eq_filterMap, categorize_outcomes_snd_eq_filterMap]
    exact h.filterMap _

/-- Claim C5 witness: swapping two concrete outcomes leaves both partition
components the same up to permutation. -/
theorem categorize_outcomes_perm_invariant_witness :
    (categorize_outcomes [("snap-a", some ["ami-1"]), ("snap-b", some [])]).1.Perm
      (categorize_outcomes [("snap-b", some []), ("snap-a", some ["ami-1"])]).1
    ∧ (categorize_outcomes [("snap-a", some ["ami-1"]), ("snap-b", some [])]).2.Perm
      (categorize_outcomes [("snap-b", some []), ("snap-a", some ["ami-1"])]).2 :=
  categorize_outcomes_perm_invariant
    [("snap-a", some ["ami-1"]), ("snap-b", some [])]
    [("snap-b", some []), ("snap-a", some ["ami-1"])] (by decide)

/-- Claim C6: in the attached table the AssociatedAMIs field of a row is
the comma-and-space join of its image ids, or the literal token None when
the list is empty or the key absent (interactive mode), and every row the
fixed-config script produces carries the join of a non-empty id list, so
it never writes an empty-AMI row. -/
theorem attached_ami_field_rendering :
    (∀ (data : List CsvInputRow) (row : CsvInputRow) (amis : List ImageId),
        row ∈ data → row.associatedAMIs = some amis →
        (amis ≠ [] →
          [row.snapshotId, String.intercalate ", " amis] ∈ save_data_to_csv data true)
        ∧ (amis = [] → [row.snapshotId, "None"] ∈ save_data_to_csv data true))
    ∧ (∀ (ec2 : EC2Client) (order : List SnapshotId) (row : FixedAttachedEntry),
        row ∈ find_attached_snapshots ec2 order →
        ∃ amis : List ImageId, amis ≠ []
          ∧ row.associatedAMIs = String.intercalate ", " amis) := by
  constructor
  · intro data row amis hmem hsome
    have hrow : save_data_to_csv data true = ["SnapshotId", "AssociatedAMIs"]
        :: data.map (fun r => [r.snapshotId, amiFieldValue r.associatedAMIs]) := rfl
    constructor
    · intro hne
      have hval : amiFieldValue (some amis) = String.intercalate ", " amis := by
        cases amis with
        | nil => exact absurd rfl hne
        | cons a t => rfl
      rw [hrow]
      refine List.mem_cons_of_mem _ ?_
      have hcell : [row.snapshotId, String.intercalate ", " amis]
          = [row.snapshotId, amiFieldValue row.associatedAMIs] := by
        rw [hsome, hval]
      rw [hcell]
      exact List.mem_map_of_mem _ hmem
    · intro hnil
      subst hnil
      rw [hrow]
      refine List.mem_cons_of_mem _ ?_
      have hcell : [row.snapshotId, "None"]
          = [row.snapshotId, amiFieldValue row.associatedAMIs] := by
        rw [hsome]
        rfl
      rw [hcell]
      exact List.mem_map_of_mem _ hmem
  · intro ec2 order row hmem
    unfold find_attached_snapshots at hmem
    rw [find_attached_outcomes_eq_map, List.mem_map] at hmem
    obtain ⟨r, hr, hgr⟩ := hmem
    have hatt := (mem_categorize_outcomes_fst
      (order.map (check_snapshot_association ec2)) r).mp hr
    refine ⟨r.associatedAMIs, hatt.2, ?_⟩
    rw [← hgr]

/-- Claim C6 witness: a concrete attached row with two image ids renders
as a comma-and-space join, and the fixed-config script's one concrete row
is the join of a non-empty id list. -/
theorem attached_ami_field_rendering_witness :
    (["snap-a", "ami-1, ami-2"] ∈ save_data_to_csv [⟨"snap-a", some ["ami-1", "ami-2"]⟩] true)
    ∧ ∃ amis : List ImageId, amis ≠ []
        ∧ (⟨"snap-a", "ami-1"⟩ : FixedAttachedEntry).associatedAMIs
            = String.intercalate ", " amis := by
  constructor
  · have h := (attached_ami_field_rendering.1 [⟨"snap-a", some ["ami-1", "ami-2"]⟩]
      ⟨"snap-a", some ["ami-1", "ami-2"]⟩ ["ami-1", "ami-2"] (by decide) rfl).1 (by decide)
    simpa using h
  · exact attached_ami_field_rendering.2 wClient ["snap-a"] ⟨"snap-a", "ami-1"⟩ (by decide)

/-- Claim C7: filename generation is a pure deterministic function of the
prefix, profile, region and the clock reading truncated to the second: it
yields names of the documented shape, two calls whose clock readings fall
in the same second give identical names, and the fixed-config variant is
the attached instance of the same function. -/
theorem generate_filename_deterministic (pre profile region : String)
    (t1 t2 : ClockTime) (h : t1 = t2) :
    generate_filename pre profile region t1
      = pre ++ "_snapshots_" ++ profile ++ "_" ++ region ++ "_" ++ strftimeYmdHMS t1 ++ ".csv"
    ∧ generate_filename pre profile region t1 = generate_filename pre profile region t2
    ∧ generate_filename_fixed profile region t1
      = generate_filename "attached" profile region t1 := by
  subst h
  refine ⟨rfl, rfl, ?_⟩
  simp [generate_filename, generate_filename_fixed, String.append_assoc]

/-- Claim C7 witness: at a concrete prefix, profile, region and clock
second the generated name has the documented shape. -/
theorem generate_filename_deterministic_witness :
    generate_filename "attached" "default" "us-east-1" ⟨2026, 10, 12, 3, 4, 5⟩
      = "attached_snapshots_default_us-east-1_2026-10-12_03-04-05.csv" := by
  have h := (generate_filename_deterministic "attached" "default" "us-east-1"
    ⟨2026, 10, 12, 3, 4, 5⟩ ⟨2026, 10, 12, 3, 4, 5⟩ rfl).1
  rw [h]
  rfl

/-- Claim C8 counterexample: with the attached path unwritable and the
unattached path perfectly writable, the interactive write phase writes no
file at all: the failure of the attached write does prevent the
unattached table from being written, contrary to the claim. -/
theorem interactive_write_counterexample :
    (interactiveWritePhase (fun f => f != "att.csv") "att.csv" []
        "unatt.csv" [⟨"snap-b", none⟩]).1 = []
    ∧ (fun f : String => f != "att.csv") "unatt.csv" = true := ⟨rfl, rfl⟩

/-- Claim C8 (amended): an IOError while writing an output table aborts
the rest of the run: if the unattached write fails, the already-written
attached file is retained; but since the attached table is written first,
a failure writing it aborts before the unattached table is written, so
nothing is written in that case. -/
theorem interactive_write_retention (writable : String → Bool) (af uf : String)
    (ad ud : List CsvInputRow) :
    (writable af = false → (interactiveWritePhase writable af ad uf ud).1 = [])
    ∧ (writable af = true → writable uf = false →
        (interactiveWritePhase writable af ad uf ud).1 = [(af, save_data_to_csv ad true)])
    ∧ (writable af = true → writable uf = true →
        (interactiveWritePhase writable af ad uf ud).1
          = [(af, save_data_to_csv ad true), (uf, save_data_to_csv ud false)]) := by
  refine ⟨?_, ?_, ?_⟩
  · intro h1
    simp [interactiveWritePhase, attemptWrite, h1]
  · intro h1 h2
    simp [interactiveWritePhase, attemptWrite, h1, h2]
  · intro h1 h2
    simp [interactiveWritePhase, attemptWrite, h1, h2]

/-- Claim C8 witness: the three write-phase cases evaluated on concrete
writability predicates. -/
theorem interactive_write_retention_witness :
    (interactiveWritePhase (fun _ => false) "att.csv" [] "unatt.csv" []).1 = []
    ∧ (interactiveWritePhase (fun f => f == "att.csv") "att.csv" [] "unatt.csv" []).1
        = [("att.csv", save_data_to_csv [] true)]
    ∧ (interactiveWritePhase (fun _ => true) "att.csv" [] "unatt.csv" []).1
        = [("att.csv", save_data_to_csv [] true), ("unatt.csv", save_data_to_csv [] false)] := by
  refine ⟨?_, ?_, ?_⟩
  · exact (interactive_write_retention (fun _ => false) "att.csv" "unatt.csv" [] []).1 rfl
  · exact (interactive_write_retention (fun f => f == "att.csv")
      "att.csv" "unatt.csv" [] []).2.1 rfl rfl
  · exact (interactive_write_retention (fun _ => true) "att.csv" "unatt.csv" [] []).2.2 rfl rfl

/-- Claim C9: a missing/partial-credentials failure makes the run exit
with status 1 with the snapshot listing never fetched, while any exception
that reaches main's top-level handler is printed and the process exits
with status 0: the exit code is 0 for every initialised run whatever
happens later, a fetch failure's message is printed, and a write-phase
IOError's message is printed as well. -/
theorem main_exit_behavior (env : Env) :
    (env.init = InitResult.credentialsMissing →
      (run_main env).exitCode = 1 ∧ (run_main env).fetchAttempted = false)
    ∧ (∀ client, env.init = InitResult.ok client → (run_main env).exitCode = 0)
    ∧ (∀ client e, env.init = InitResult.ok client → env.pages = Except.error e →
        ("An error occurred: " ++ e) ∈ (run_main env).output)
    ∧ (∀ client pages e, env.init = InitResult.ok client → env.pages = Except.ok pages →
        (interactiveWritePhase env.writable
            (generate_filename "attached"
              (if env.profileInput = "" then "default" else env.profileInput)
              (if env.regionInput = "" then "us-east-1" else env.regionInput) env.now)
            ((categorize_snapshots client (env.arrival pages.flatten)).1.map
              (fun r => ⟨r.snapshotId, some r.associatedAMIs⟩))
            (generate_filename "unattached"
              (if env.profileInput = "" then "default" else env.profileInput)
              (if env.regionInput = "" then "us-east-1" else env.regionInput) env.now)
            ((categorize_snapshots client (env.arrival pages.flatten)).2.map
              (fun sid => ⟨sid, none⟩))).2 = some e →
        ("An error occurred: " ++ e) ∈ (run_main env).output) := by
  refine ⟨?_, ?_, ?_, ?_⟩
  · intro h
    simp [run_main, h]
  · intro client h
    cases hp : env.pages with
    | error e => simp [run_main, h, hp]
    | ok pages => simp [run_main, h, hp]
  · intro client e h hp
    simp [run_main, h, hp]
  · intro client pages e h hp hw
    simp [run_main, h, hp, hw]

/-- Claim C9 witness: the credentials-failure environment exits 1 without
fetching; the fetch-failure environment exits 0 and prints the fetch
error; the write-failure environment exits 0 and prints the IOError of
its attached-table write. -/
theorem main_exit_behavior_witness :
    ((run_main envCreds).exitCode = 1 ∧ (run_main envCreds).fetchAttempted = false)
    ∧ (run_main envFetchFail).exitCode = 0
    ∧ ("An error occurred: " ++ "RequestLimitExceeded") ∈ (run_main envFetchFail).output
    ∧ (run_main envWriteFail).exitCode = 0
    ∧ ("An error occurred: "
        ++ "IOError: attached_snapshots_default_us-east-1_2026-10-12_00-00-00.csv")
      ∈ (run_main envWriteFail).output := by
  refine ⟨?_, ?_, ?_, ?_, ?_⟩
  · exact (main_exit_behavior envCreds).1 rfl
  · exact (main_exit_behavior envFetchFail).2.1 wClient rfl
  · exact (main_exit_behavior envFetchFail).2.2.1 wClient "RequestLimitExceeded" rfl rfl
  · exact (main_exit_behavior envWriteFail).2.1 wClient rfl
  · exact (main_exit_behavior envWriteFail).2.2.2 wClient [["snap-a"]]
      "IOError: attached_snapshots_default_us-east-1_2026-10-12_00-00-00.csv" rfl rfl
      (by decide)

/-- Claim C10: for every client handle and completion order, the
fixed-config classification equals the attached component of the
interactive classification with each row's image-id list joined by a comma
and a space: the two scripts' classification cores agree on the attached
partition. -/
theorem fixed_config_refines_interactive (ec2 : EC2Client) (order : List SnapshotId) :
    find_attached_snapshots ec2 order
      = (categorize_snapshots ec2 order).1.map
          (fun r => ⟨r.snapshotId, String.intercalate ", " r.associatedAMIs⟩) :=
  find_attached_outcomes_eq_map (order.map (check_snapshot_association ec2))
